import Mathlib

/-!
Shallow embedding of the event-ticket management program
(streamlit_pg_08.py): the ticket record model, the load-time
normalization, the state-transition handlers (manual sale, reverse sale,
check-in, reset database) and the dashboard reconciliation summary.
The pandas DataFrame of tickets is modelled as a List of Ticket records;
each handler that mutates one row via tickets.at[idx, ...] with
idx = tickets.index[tickets["TicketID"] == tid][0] is modelled as an
update of the first matching element of the list.
-/

namespace EventTickets

/-- A normalized ticket row, as produced by load_all_data.
Seq is Option Int: pd.to_numeric(..., errors="coerce") leaves missing or
non-numeric Seq as NaN (modelled none), with no fillna applied.
Timestamp is Option String: the code stores str(pd.Timestamp.now()) on
sale and None on reversal / reset. -/
structure Ticket where
  TicketID : String
  Ty : String
  Category : String
  Admit : Int
  Seq : Option Int
  Sold : Bool
  Customer : String
  Visited : Bool
  Visitor_Seats : Int
  Timestamp : Option String
deriving Repr, DecidableEq

/-- A raw ticket row as read from the tickets table, before the
normalization in load_all_data. A field is none when the stored value is
NULL (or, for the numeric fields Admit and Seq, non-numeric, which
pd.to_numeric with errors="coerce" also turns into NaN). -/
structure RawTicket where
  TicketID : String
  Ty : String
  Category : String
  Admit : Option Int
  Seq : Option Int
  Sold : Option Bool
  Customer : Option String
  Visited : Option Bool
  Visitor_Seats : Option Int
  Timestamp : Option String
deriving Repr, DecidableEq

/-- str.zfill(4): left-pad with zeros to width 4. -/
def zfill4 (s : String) : String :=
  if s.length ≥ 4 then s else String.mk (List.replicate (4 - s.length) '0') ++ s

/-- The per-row normalization of load_all_data (lines 52-58):
Visitor_Seats.fillna(0), Sold.fillna(False), Visited.fillna(False),
Customer.fillna(""), Admit via to_numeric coerce then fillna(1),
Seq via to_numeric coerce with no fillna, TicketID zero-padded to 4. -/
def normalize (r : RawTicket) : Ticket :=
  { TicketID := zfill4 r.TicketID
    Ty := r.Ty
    Category := r.Category
    Admit := r.Admit.getD 1
    Seq := r.Seq
    Sold := r.Sold.getD false
    Customer := r.Customer.getD ""
    Visited := r.Visited.getD false
    Visitor_Seats := r.Visitor_Seats.getD 0
    Timestamp := r.Timestamp }

/-- The rejection causes of the operation handlers. NotFound and the
guards AlreadySold / NotSold correspond to the handler only offering
ticket ids drawn from the matching filtered list (avail respectively
sold_tickets); Unauthorized is the Incorrect Admin Password branch of the
Reset Database handler. -/
inductive OpError where
  | NotFound
  | AlreadySold
  | NotSold
  | Unauthorized
deriving Repr, DecidableEq

/-- Update the first element satisfying p by f, leaving every other
element unchanged: the semantics of tickets.at[idx, col] = v at
idx = tickets.index[tickets["TicketID"] == tid][0]. -/
def updateFirst (p : Ticket → Bool) (f : Ticket → Ticket) : List Ticket → List Ticket
  | [] => []
  | t :: ts => if p t then f t :: ts else t :: updateFirst p f ts

/-- The field updates of the Manual Sale handler (lines 215-217). -/
def sellUpd (cust now : String) (t : Ticket) : Ticket :=
  { t with Sold := true, Customer := cust, Timestamp := some now }

/-- Manual Sale handler (lines 194-220): the form only offers ticket ids
from avail, the unsold tickets, so a sold ticket is rejected
(AlreadySold) and an absent id is rejected (NotFound); on success the
first row with the given TicketID gets Sold=True, Customer=cust,
Timestamp=str(pd.Timestamp.now()), modelled by the parameter now. -/
def sell (tickets : List Ticket) (tid cust now : String) : Except OpError (List Ticket) :=
  match tickets.find? (fun t => t.TicketID == tid) with
  | none => .error .NotFound
  | some t =>
    if t.Sold then .error .AlreadySold
    else .ok (updateFirst (fun u => u.TicketID == tid) (sellUpd cust now) tickets)

/-- The field updates of the Reverse Sale handler (lines 246-250),
also applied to every row by the Reset Database handler (lines 111-115). -/
def resetTicket (t : Ticket) : Ticket :=
  { t with Sold := false, Customer := "", Visited := false,
           Visitor_Seats := 0, Timestamp := none }

/-- Reverse Sale handler (lines 225-253): the form only offers ticket ids
from sold_tickets, so an unsold ticket is rejected (NotSold) and an
absent id is rejected (NotFound); on success the first row with the given
TicketID is reset to the unsold baseline. -/
def reverseSale (tickets : List Ticket) (tid : String) : Except OpError (List Ticket) :=
  match tickets.find? (fun t => t.TicketID == tid) with
  | none => .error .NotFound
  | some t =>
    if t.Sold then
      .ok (updateFirst (fun u => u.TicketID == tid) resetTicket tickets)
    else .error .NotSold

/-- Modelled from the spec: the Visitors tab check-in handler is absent
from the provided source (the file is truncated inside the third tab),
so CheckIn is taken from spec section 4.2: fail with NotFound if the id
is absent, fail with NotSold if the ticket is not sold, otherwise set
Visited=true and Visitor_Seats=seatsUsed on that ticket; re-entry is
allowed and overwrites Visitor_Seats. -/
def checkIn (tickets : List Ticket) (tid : String) (seatsUsed : Int) :
    Except OpError (List Ticket) :=
  match tickets.find? (fun t => t.TicketID == tid) with
  | none => .error .NotFound
  | some t =>
    if t.Sold then
      .ok (updateFirst (fun u => u.TicketID == tid)
            (fun u => { u with Visited := true, Visitor_Seats := seatsUsed }) tickets)
    else .error .NotSold

/-- Reset Database handler (lines 109-121): with the admin password
admin123 every ticket is forced to the unsold baseline; any other
password hits the Incorrect Admin Password branch and changes nothing. -/
def resetAll (tickets : List Ticket) (secret : String) : Except OpError (List Ticket) :=
  if secret == "admin123" then .ok (tickets.map resetTicket)
  else .error .Unauthorized

/-- Invariant I1 of the spec: an unsold ticket has empty Customer, is not
Visited, has zero Visitor_Seats and a null Timestamp. -/
def I1 (t : Ticket) : Prop :=
  t.Sold = false →
    t.Customer = "" ∧ t.Visited = false ∧ t.Visitor_Seats = 0 ∧ t.Timestamp = none

instance (t : Ticket) : Decidable (I1 t) := by unfold I1; infer_instance

/-- A dashboard groupby key: (Seq, Type, Category, Admit), line 137. -/
abbrev GroupKey := Int × String × String × Int

/-- The groupby key of a ticket. Pandas groupby drops rows whose key
contains NaN (dropna defaults to True), and Seq is the only nullable key
column after normalization, so a ticket with missing Seq has no key. -/
def keyOf (t : Ticket) : Option GroupKey :=
  t.Seq.map (fun s => (s, t.Ty, t.Category, t.Admit))

/-- The distinct groupby keys occurring in the collection. -/
def groupKeys (tickets : List Ticket) : List GroupKey :=
  (tickets.filterMap keyOf).dedup

/-- The tickets of one group. -/
def groupTickets (tickets : List Ticket) (k : GroupKey) : List Ticket :=
  tickets.filter (fun t => keyOf t == some k)

/-- One summary row of the dashboard (lines 136-165). -/
structure SummaryRow where
  Seq : Int
  Ty : String
  Category : String
  Admit : Int
  Total_Tickets : Int
  Tickets_Sold : Int
  Total_Visitors : Int
  Total_Seats : Int
  Seats_sold : Int
  Balance_Tickets : Int
  Balance_Seats : Int
  Balance_Visitors : Int
deriving Repr, DecidableEq

/-- The aggregates of one group (lines 138-150): Total_Tickets counts the
rows, Tickets_Sold sums the Sold booleans, Total_Visitors sums
Visitor_Seats, and the derived columns are the stated products and
differences. -/
def mkRow (tickets : List Ticket) (k : GroupKey) : SummaryRow :=
  let g := groupTickets tickets k
  let tt : Int := g.length
  let sold : Int := (g.filter (fun t => t.Sold)).length
  let visitors : Int := (g.map (fun t => t.Visitor_Seats)).sum
  { Seq := k.1, Ty := k.2.1, Category := k.2.2.1, Admit := k.2.2.2
    Total_Tickets := tt
    Tickets_Sold := sold
    Total_Visitors := visitors
    Total_Seats := tt * k.2.2.2
    Seats_sold := sold * k.2.2.2
    Balance_Tickets := tt - sold
    Balance_Seats := tt * k.2.2.2 - sold * k.2.2.2
    Balance_Visitors := sold * k.2.2.2 - visitors }

/-- The sort key of custom_sort (lines 78-89): a Seq of 0 (or the string
"0" or None, which cannot occur among the groupby keys) is mapped to the
literal constant 10; every other Seq maps to itself. -/
def sortKey (s : Int) : Int := if s = 0 then 10 else s

/-- Ordering of groups in the summary: ascending by sortKey of Seq. -/
def keyLE (a b : GroupKey) : Prop := sortKey a.1 ≤ sortKey b.1

instance : DecidableRel keyLE := fun a b => by unfold keyLE; infer_instance

instance : IsTotal GroupKey keyLE := ⟨fun x y => Int.le_total (sortKey x.1) (sortKey y.1)⟩

instance : IsTrans GroupKey keyLE := ⟨fun _ _ _ h h2 => le_trans h h2⟩

/-- The non-total rows of the dashboard summary: one row per distinct
group key, ordered by custom_sort. -/
def summaryRows (tickets : List Ticket) : List SummaryRow :=
  (List.insertionSort keyLE (groupKeys tickets)).map (mkRow tickets)

/-- The collection the Manual Sale handler leaves behind: the updated one
on success, the untouched one on rejection (on rejection nothing is
written back to the store). -/
def sellStep (tickets : List Ticket) (tid cust now : String) : List Ticket :=
  match sell tickets tid cust now with
  | .ok ts2 => ts2
  | .error _ => tickets

/-- The collection the Reset Database handler leaves behind. -/
def resetStep (tickets : List Ticket) (secret : String) : List Ticket :=
  match resetAll tickets secret with
  | .ok ts2 => ts2
  | .error _ => tickets

/-! ### Helper lemmas about updateFirst -/

theorem length_updateFirst (p : Ticket → Bool) (f : Ticket → Ticket) :
    ∀ ts : List Ticket, (updateFirst p f ts).length = ts.length
  | [] => rfl
  | t :: ts => by
    unfold updateFirst
    by_cases h : p t <;> simp [h, length_updateFirst p f ts]

/-- An element at a position whose ticket does not satisfy p is untouched
by updateFirst. -/
theorem getElem?_updateFirst (p : Ticket → Bool) (f : Ticket → Ticket) :
    ∀ (ts : List Ticket) (i : Nat) (u : Ticket),
      ts[i]? = some u → p u = false → (updateFirst p f ts)[i]? = some u
  | [], i, u, h, _ => by simp at h
  | t :: ts, i, u, h, hp => by
    unfold updateFirst
    by_cases hpt : p t
    · cases i with
      | zero =>
        simp at h
        subst h
        simp [hpt] at hp
      | succ n =>
        simp [hpt]
        simpa using h
    · cases i with
      | zero =>
        simp at h
        subst h
        simp [hp]
      | succ n =>
        simp [hpt]
        exact getElem?_updateFirst p f ts n u (by simpa using h) hp

/-- If f does not change whether p holds, updateFirst maps the first
p-match through f and find? sees exactly that image. -/
theorem find?_updateFirst (p : Ticket → Bool) (f : Ticket → Ticket)
    (hpf : ∀ t, p (f t) = p t) :
    ∀ ts : List Ticket, (updateFirst p f ts).find? p = (ts.find? p).map f
  | [] => rfl
  | t :: ts => by
    unfold updateFirst
    by_cases hpt : p t
    · simp [List.find?_cons, hpf, hpt]
    · simp [List.find?_cons, hpf, hpt, find?_updateFirst p f hpf ts]

/-- Every element of updateFirst p f ts is either an old element or the
image under f of the first p-match. -/
theorem mem_updateFirst (p : Ticket → Bool) (f : Ticket → Ticket) :
    ∀ (ts : List Ticket) (u : Ticket), u ∈ updateFirst p f ts →
      u ∈ ts ∨ ∃ v, ts.find? p = some v ∧ u = f v
  | [], u, h => by simp [updateFirst] at h
  | t :: ts, u, h => by
    unfold updateFirst at h
    by_cases hpt : p t
    · simp [hpt] at h
      rcases h with h | h
      · exact Or.inr ⟨t, by simp [List.find?_cons, hpt], h⟩
      · exact Or.inl (List.mem_cons_of_mem t h)
    · simp [hpt] at h
      rcases h with h | h
      · exact Or.inl (by simp [h])
      · rcases mem_updateFirst p f ts u h with h2 | ⟨v, hv, hu⟩
        · exact Or.inl (List.mem_cons_of_mem t h2)
        · exact Or.inr ⟨v, by simp [List.find?_cons, hpt, hv], hu⟩

/-! ### Sample tickets used by the concrete witnesses -/

/-- An unsold baseline ticket. -/
def tGA1 : Ticket := ⟨"0001", "Public", "GA", 2, some 1, false, "", false, 0, none⟩

/-- A second unsold baseline ticket in the same group. -/
def tGA2 : Ticket := ⟨"0002", "Public", "GA", 2, some 1, false, "", false, 0, none⟩

/-- The ticket tGA1 after being sold to Bob at time t1. -/
def tBob : Ticket := ⟨"0001", "Public", "GA", 2, some 1, true, "Bob", false, 0, some "t1"⟩

/-! ### Claims -/

/-- C5: selling a ticket whose Sold flag is already true is rejected as
AlreadySold (the Manual Sale form only offers the unsold tickets of
avail) and the handler leaves the collection unchanged, so the previous
Customer is kept. -/
theorem sell_already_sold_rejected (ts : List Ticket) (tid cust now : String)
    (t : Ticket) (hfind : ts.find? (fun u => u.TicketID == tid) = some t)
    (hsold : t.Sold = true) :
    sell ts tid cust now = .error .AlreadySold ∧ sellStep ts tid cust now = ts := by
  have h : sell ts tid cust now = .error .AlreadySold := by
    unfold sell
    rw [hfind]
    simp [hsold]
  exact ⟨h, by unfold sellStep; rw [h]⟩

/-- Witness for C5, the Bob / Carol scenario: selling 0001 to Bob
succeeds, reselling it to Carol is rejected and Customer stays Bob. -/
theorem sell_already_sold_rejected_witness :
    (sell [tGA1] "0001" "Bob" "t1" = .ok [tBob] ∧
      [tBob].find? (fun u => u.TicketID == "0001") = some tBob ∧
      tBob.Sold = true ∧ tBob.Customer = "Bob") ∧
    (sell [tBob] "0001" "Carol" "t2" = .error .AlreadySold ∧
      sellStep [tBob] "0001" "Carol" "t2" = [tBob]) :=
  ⟨⟨rfl, rfl, rfl, rfl⟩,
   sell_already_sold_rejected [tBob] "0001" "Carol" "t2" tBob rfl rfl⟩

/-- C8: Reset Database with a password other than admin123 hits the
Incorrect Admin Password branch, Unauthorized, and the collection is
untouched; with the matching password every ticket is forced to the
unsold baseline. -/
theorem resetAll_guard (ts : List Ticket) (secret : String) :
    (secret ≠ "admin123" →
      resetAll ts secret = .error .Unauthorized ∧ resetStep ts secret = ts) ∧
    (secret = "admin123" →
      resetAll ts secret = .ok (ts.map resetTicket) ∧
      ∀ t ∈ ts.map resetTicket,
        t.Sold = false ∧ t.Customer = "" ∧ t.Visited = false ∧
        t.Visitor_Seats = 0 ∧ t.Timestamp = none) := by
  constructor
  · intro hne
    have h : resetAll ts secret = .error .Unauthorized := by
      unfold resetAll
      simp [hne]
    exact ⟨h, by unfold resetStep; rw [h]⟩
  · intro heq
    subst heq
    refine ⟨rfl, ?_⟩
    intro t ht
    rcases List.mem_map.1 ht with ⟨v, _, rfl⟩
    exact ⟨rfl, rfl, rfl, rfl, rfl⟩

/-- Witness for C8 at a concrete one-ticket collection. -/
theorem resetAll_guard_witness :
    ("wrong" ≠ "admin123" ∧
      resetAll [tBob] "wrong" = .error .Unauthorized ∧
      resetStep [tBob] "wrong" = [tBob]) ∧
    resetAll [tBob] "admin123" = .ok [resetTicket tBob] :=
  ⟨⟨by decide,
    ((resetAll_guard [tBob] "wrong").1 (by decide)).1,
    ((resetAll_guard [tBob] "wrong").1 (by decide)).2⟩,
   ((resetAll_guard [tBob] "admin123").2 rfl).1⟩

/-- C10: Manual Sale and Reverse Sale write a single row: the collection
keeps its length and every position holding a ticket whose TicketID
differs from the given id is unchanged by the operation. -/
theorem sell_reverse_frame (ts : List Ticket) (tid : String) :
    (∀ cust now ts2, sell ts tid cust now = .ok ts2 →
      ts2.length = ts.length ∧
      ∀ (i : Nat) (u : Ticket), ts[i]? = some u → u.TicketID ≠ tid → ts2[i]? = some u) ∧
    (∀ ts2, reverseSale ts tid = .ok ts2 →
      ts2.length = ts.length ∧
      ∀ (i : Nat) (u : Ticket), ts[i]? = some u → u.TicketID ≠ tid → ts2[i]? = some u) := by
  constructor
  · intro cust now ts2 hs
    unfold sell at hs
    cases hfind : ts.find? (fun t => t.TicketID == tid) with
    | none => rw [hfind] at hs; exact absurd hs (by simp)
    | some t =>
      rw [hfind] at hs
      by_cases hsold : t.Sold
      · simp [hsold] at hs
      · simp [hsold] at hs
        subst hs
        refine ⟨length_updateFirst _ _ ts, ?_⟩
        intro i u hi hne
        exact getElem?_updateFirst _ _ ts i u hi (by simp [hne])
  · intro ts2 hs
    unfold reverseSale at hs
    cases hfind : ts.find? (fun t => t.TicketID == tid) with
    | none => rw [hfind] at hs; exact absurd hs (by simp)
    | some t =>
      rw [hfind] at hs
      by_cases hsold : t.Sold
      · simp [hsold] at hs
        subst hs
        refine ⟨length_updateFirst _ _ ts, ?_⟩
        intro i u hi hne
        exact getElem?_updateFirst _ _ ts i u hi (by simp [hne])
      · simp [hsold] at hs

/-- Witness for C10: selling 0001 in a two-ticket collection leaves the
other ticket 0002 in place, and so does reversing that sale. -/
theorem sell_reverse_frame_witness :
    (sell [tGA1, tGA2] "0001" "Bob" "t1" = .ok [tBob, tGA2] ∧
      [tGA1, tGA2][1]? = some tGA2 ∧ tGA2.TicketID ≠ "0001" ∧
      [tBob, tGA2][1]? = some tGA2) ∧
    (reverseSale [tBob, tGA2] "0001" = .ok [resetTicket tBob, tGA2] ∧
      [resetTicket tBob, tGA2][1]? = some tGA2) :=
  ⟨⟨rfl, rfl, by decide,
    ((sell_reverse_frame [tGA1, tGA2] "0001").1 "Bob" "t1" [tBob, tGA2] rfl).2
      1 tGA2 rfl (by decide)⟩,
   ⟨rfl,
    ((sell_reverse_frame [tBob, tGA2] "0001").2 [resetTicket tBob, tGA2] rfl).2
      1 tGA2 rfl (by decide)⟩⟩

/-- C3: invariant I1 (an unsold ticket has empty Customer, Visited false,
zero Visitor_Seats and null Timestamp) is preserved by every operation:
sell, reverseSale, checkIn and resetAll, provided it held before. -/
theorem ops_preserve_I1 (ts : List Ticket) (h : ∀ t ∈ ts, I1 t) :
    (∀ tid cust now ts2, sell ts tid cust now = .ok ts2 → ∀ t ∈ ts2, I1 t) ∧
    (∀ tid ts2, reverseSale ts tid = .ok ts2 → ∀ t ∈ ts2, I1 t) ∧
    (∀ tid seats ts2, checkIn ts tid seats = .ok ts2 → ∀ t ∈ ts2, I1 t) ∧
    (∀ secret ts2, resetAll ts secret = .ok ts2 → ∀ t ∈ ts2, I1 t) := by
  refine ⟨?_, ?_, ?_, ?_⟩
  · intro tid cust now ts2 hs u hu
    unfold sell at hs
    cases hfind : ts.find? (fun t => t.TicketID == tid) with
    | none => rw [hfind] at hs; exact absurd hs (by simp)
    | some t =>
      rw [hfind] at hs
      by_cases hsold : t.Sold
      · simp [hsold] at hs
      · simp [hsold] at hs
        subst hs
        rcases mem_updateFirst _ _ ts u hu with h1 | ⟨v, _, rfl⟩
        · exact h u h1
        · intro h0
          simp [sellUpd] at h0
  · intro tid ts2 hs u hu
    unfold reverseSale at hs
    cases hfind : ts.find? (fun t => t.TicketID == tid) with
    | none => rw [hfind] at hs; exact absurd hs (by simp)
    | some t =>
      rw [hfind] at hs
      by_cases hsold : t.Sold
      · simp [hsold] at hs
        subst hs
        rcases mem_updateFirst _ _ ts u hu with h1 | ⟨v, _, rfl⟩
        · exact h u h1
        · intro _
          exact ⟨rfl, rfl, rfl, rfl⟩
      · simp [hsold] at hs
  · intro tid seats ts2 hs u hu
    unfold checkIn at hs
    cases hfind : ts.find? (fun t => t.TicketID == tid) with
    | none => rw [hfind] at hs; exact absurd hs (by simp)
    | some t =>
      rw [hfind] at hs
      by_cases hsold : t.Sold
      · simp [hsold] at hs
        subst hs
        rcases mem_updateFirst _ _ ts u hu with h1 | ⟨v, hv, rfl⟩
        · exact h u h1
        · intro h0
          rw [hfind] at hv
          injection hv with hv2
          subst hv2
          simp [hsold] at h0
      · simp [hsold] at hs
  · intro secret ts2 hs u hu
    unfold resetAll at hs
    by_cases hsec : secret == "admin123"
    · simp [hsec] at hs
      subst hs
      rcases List.mem_map.1 hu with ⟨v, _, rfl⟩
      intro _
      exact ⟨rfl, rfl, rfl, rfl⟩
    · simp [hsec] at hs

/-- Witness for C3 at a concrete one-ticket collection satisfying I1. -/
theorem ops_preserve_I1_witness :
    (∀ t ∈ [tGA1], I1 t) ∧
    ((∀ tid cust now ts2, sell [tGA1] tid cust now = .ok ts2 → ∀ t ∈ ts2, I1 t) ∧
     (∀ tid ts2, reverseSale [tGA1] tid = .ok ts2 → ∀ t ∈ ts2, I1 t) ∧
     (∀ tid seats ts2, checkIn [tGA1] tid seats = .ok ts2 → ∀ t ∈ ts2, I1 t) ∧
     (∀ secret ts2, resetAll [tGA1] secret = .ok ts2 → ∀ t ∈ ts2, I1 t)) :=
  ⟨by decide, ops_preserve_I1 [tGA1] (by decide)⟩

/-- C4: reverseSale is a left-inverse of sell on the five mutable fields:
starting from a collection whose ticket tid is unsold and satisfies I1,
selling it and then reversing the sale restores exactly the pre-sale
values of Sold, Customer, Visited, Visitor_Seats and Timestamp. -/
theorem reverse_inverts_sell (ts : List Ticket) (tid cust now : String)
    (t : Ticket) (hfind : ts.find? (fun u => u.TicketID == tid) = some t)
    (hI1 : I1 t) (hunsold : t.Sold = false) (ts2 ts3 : List Ticket)
    (hsell : sell ts tid cust now = .ok ts2)
    (hrev : reverseSale ts2 tid = .ok ts3) :
    ∃ t3, ts3.find? (fun u => u.TicketID == tid) = some t3 ∧
      t3.Sold = t.Sold ∧ t3.Customer = t.Customer ∧ t3.Visited = t.Visited ∧
      t3.Visitor_Seats = t.Visitor_Seats ∧ t3.Timestamp = t.Timestamp := by
  have hsellUpd : ∀ u : Ticket,
      (fun v : Ticket => v.TicketID == tid) (sellUpd cust now u)
        = (fun v : Ticket => v.TicketID == tid) u := fun _ => rfl
  have hreset : ∀ u : Ticket,
      (fun v : Ticket => v.TicketID == tid) (resetTicket u)
        = (fun v : Ticket => v.TicketID == tid) u := fun _ => rfl
  unfold sell at hsell
  rw [hfind] at hsell
  simp [hunsold] at hsell
  subst hsell
  have hfind2 : (updateFirst (fun u => u.TicketID == tid) (sellUpd cust now) ts).find?
      (fun u => u.TicketID == tid) = some (sellUpd cust now t) := by
    rw [find?_updateFirst _ _ hsellUpd ts, hfind]
    rfl
  unfold reverseSale at hrev
  rw [hfind2] at hrev
  simp [sellUpd] at hrev
  subst hrev
  refine ⟨resetTicket (sellUpd cust now t), ?_, ?_, ?_, ?_, ?_, ?_⟩
  · rw [find?_updateFirst _ _ hreset _, hfind2]
    rfl
  · exact hunsold.symm
  · exact ((hI1 hunsold).1).symm
  · exact ((hI1 hunsold).2.1).symm
  · exact ((hI1 hunsold).2.2.1).symm
  · exact ((hI1 hunsold).2.2.2).symm

/-- Witness for C4: selling tGA1 to Alice and reversing restores the
baseline fields. -/
theorem reverse_inverts_sell_witness :
    ([tGA1].find? (fun u => u.TicketID == "0001") = some tGA1 ∧
      I1 tGA1 ∧ tGA1.Sold = false ∧
      sell [tGA1] "0001" "Alice" "t1" = .ok [sellUpd "Alice" "t1" tGA1] ∧
      reverseSale [sellUpd "Alice" "t1" tGA1] "0001"
        = .ok [resetTicket (sellUpd "Alice" "t1" tGA1)]) ∧
    (∃ t3, [resetTicket (sellUpd "Alice" "t1" tGA1)].find?
        (fun u => u.TicketID == "0001") = some t3 ∧
      t3.Sold = tGA1.Sold ∧ t3.Customer = tGA1.Customer ∧
      t3.Visited = tGA1.Visited ∧ t3.Visitor_Seats = tGA1.Visitor_Seats ∧
      t3.Timestamp = tGA1.Timestamp) :=
  ⟨⟨rfl, by decide, rfl, rfl, rfl⟩,
   reverse_inverts_sell [tGA1] "0001" "Alice" "t1" tGA1 rfl (by decide) rfl
     [sellUpd "Alice" "t1" tGA1] [resetTicket (sellUpd "Alice" "t1" tGA1)] rfl rfl⟩

/-- C9 (check-in handler modelled from the spec, the source being
truncated before the Visitors tab): checkIn on an unsold ticket is
rejected as NotSold; on a sold ticket it succeeds, sets Visited and
Visitor_Seats, and a second checkIn on the now-visited ticket succeeds
and overwrites Visitor_Seats with the new value. -/
theorem checkIn_behaviour (ts : List Ticket) (tid : String) (seats : Int)
    (t : Ticket) (hfind : ts.find? (fun u => u.TicketID == tid) = some t) :
    (t.Sold = false → checkIn ts tid seats = .error .NotSold) ∧
    (t.Sold = true → ∀ seats2 : Int,
      ∃ ts2, checkIn ts tid seats = .ok ts2 ∧
        ts2.find? (fun u => u.TicketID == tid)
          = some { t with Visited := true, Visitor_Seats := seats } ∧
        ∃ ts3, checkIn ts2 tid seats2 = .ok ts3 ∧
          ts3.find? (fun u => u.TicketID == tid)
            = some { t with Visited := true, Visitor_Seats := seats2 }) := by
  constructor
  · intro hunsold
    unfold checkIn
    rw [hfind]
    simp [hunsold]
  · intro hsold seats2
    have hupd : ∀ s : Int, ∀ u : Ticket,
        (fun v : Ticket => v.TicketID == tid)
            ({ u with Visited := true, Visitor_Seats := s })
          = (fun v : Ticket => v.TicketID == tid) u := fun _ _ => rfl
    refine ⟨updateFirst (fun u => u.TicketID == tid)
        (fun u => { u with Visited := true, Visitor_Seats := seats }) ts, ?_, ?_, ?_⟩
    · unfold checkIn
      rw [hfind]
      simp [hsold]
    · rw [find?_updateFirst _ _ (hupd seats) ts, hfind]
      rfl
    · have hfind2 : (updateFirst (fun u => u.TicketID == tid)
          (fun u => { u with Visited := true, Visitor_Seats := seats }) ts).find?
            (fun u => u.TicketID == tid)
          = some { t with Visited := true, Visitor_Seats := seats } := by
        rw [find?_updateFirst _ _ (hupd seats) ts, hfind]
        rfl
      refine ⟨updateFirst (fun u => u.TicketID == tid)
          (fun u => { u with Visited := true, Visitor_Seats := seats2 })
          (updateFirst (fun u => u.TicketID == tid)
            (fun u => { u with Visited := true, Visitor_Seats := seats }) ts), ?_, ?_⟩
      · unfold checkIn
        rw [hfind2]
        simp [hsold]
      · rw [find?_updateFirst _ _ (hupd seats2) _, hfind2]
        rfl

/-- Witness for C9: check-in with 2 seats on the sold ticket tBob, then a
correcting re-entry with 1 seat. -/
theorem checkIn_behaviour_witness :
    ([tBob].find? (fun u => u.TicketID == "0001") = some tBob ∧ tBob.Sold = true) ∧
    (∃ ts2, checkIn [tBob] "0001" 2 = .ok ts2 ∧
      ts2.find? (fun u => u.TicketID == "0001")
        = some { tBob with Visited := true, Visitor_Seats := 2 } ∧
      ∃ ts3, checkIn ts2 "0001" 1 = .ok ts3 ∧
        ts3.find? (fun u => u.TicketID == "0001")
          = some { tBob with Visited := true, Visitor_Seats := 1 }) :=
  ⟨⟨rfl, rfl⟩, (checkIn_behaviour [tBob] "0001" 2 tBob rfl).2 rfl 1⟩

/-- A raw ticket whose stored Admit is the numeric value 0. -/
def rawAdmitZero : RawTicket :=
  ⟨"1", "Public", "GA", some 0, some 1, none, none, none, none, none⟩

/-- A raw ticket whose stored Admit is absent (or non-numeric). -/
def rawAdmitMissing : RawTicket :=
  ⟨"1", "Public", "GA", none, some 1, none, none, none, none, none⟩

/-- C7 counterexample: load normalization does not establish I3. A stored
numeric Admit of 0 is left unchanged by
pd.to_numeric(...).fillna(1) — only NaN cells are replaced — so the
normalized ticket has Admit = 0, violating Admit at least 1. -/
theorem normalize_admit_counterexample :
    (normalize rawAdmitZero).Admit = 0 ∧
    ¬ (1 ≤ (normalize rawAdmitZero).Admit) := by decide

/-- C7 amended: normalization turns an absent or non-numeric Admit into 1
and passes every stored numeric Admit through unchanged, so I3 (Admit at
least 1) holds after load only under the assumption that every stored
numeric Admit is already at least 1. -/
theorem normalize_admit (r : RawTicket)
    (h : ∀ a : Int, r.Admit = some a → 1 ≤ a) :
    (normalize r).Admit = r.Admit.getD 1 ∧
    (r.Admit = none → (normalize r).Admit = 1) ∧
    1 ≤ (normalize r).Admit := by
  refine ⟨rfl, fun h0 => by simp [normalize, h0], ?_⟩
  cases ha : r.Admit with
  | none => simp [normalize, ha]
  | some a => simpa [normalize, ha] using h a ha

/-- Witness for C7 at a raw ticket with absent Admit. -/
theorem normalize_admit_witness :
    (∀ a : Int, rawAdmitMissing.Admit = some a → 1 ≤ a) ∧
    ((normalize rawAdmitMissing).Admit = rawAdmitMissing.Admit.getD 1 ∧
      (rawAdmitMissing.Admit = none → (normalize rawAdmitMissing).Admit = 1) ∧
      1 ≤ (normalize rawAdmitMissing).Admit) :=
  ⟨fun a ha => by simp [rawAdmitMissing] at ha,
   normalize_admit rawAdmitMissing (fun a ha => by simp [rawAdmitMissing] at ha)⟩

/-- An unsold ticket whose group has Seq 0. -/
def seq0Ticket : Ticket := ⟨"0010", "Public", "GA", 1, some 0, false, "", false, 0, none⟩

/-- An unsold ticket whose group has Seq 5. -/
def seq5Ticket : Ticket := ⟨"0012", "Public", "GA", 1, some 5, false, "", false, 0, none⟩

/-- An unsold ticket whose group has Seq 11. -/
def seq11Ticket : Ticket := ⟨"0011", "Public", "GA", 1, some 11, false, "", false, 0, none⟩

/-- The ordering property claimed for the summary: every row with Seq 0
appears strictly after every row with a positive Seq. -/
def zeroSeqLast (ts : List Ticket) : Prop :=
  ∀ (i j : Nat) (u v : SummaryRow),
    (summaryRows ts)[i]? = some u → (summaryRows ts)[j]? = some v →
    u.Seq = 0 → 0 < v.Seq → j < i

/-- C1 counterexample: with groups Seq=0 and Seq=11 the Seq=0 row comes
first, because custom_sort maps a Seq of 0 to the literal constant 10,
which is not larger than the real sequence value 11. -/
theorem custom_sort_counterexample :
    (summaryRows [seq0Ticket, seq11Ticket]).map (fun r => r.Seq) = [0, 11] ∧
    ¬ zeroSeqLast [seq0Ticket, seq11Ticket] := by
  constructor
  · decide
  · intro h
    exact absurd
      (h 0 1 (mkRow [seq0Ticket, seq11Ticket] (0, "Public", "GA", 1))
         (mkRow [seq0Ticket, seq11Ticket] (11, "Public", "GA", 1))
         (by decide) (by decide) (by decide) (by decide))
      (by decide)

/-- C1 amended: the summary rows are ordered ascending by the key of
custom_sort, which maps a Seq of 0 to the constant 10 (so a Seq=0 row
appears after every row with Seq 1 to 9 — in particular after a Seq=5
row, stated as the second conjunct — but not after rows with Seq 11 or
more; tickets with absent or non-numeric Seq form no group at all). -/
theorem custom_sort_amended (ts : List Ticket) :
    (summaryRows ts).Pairwise (fun a b => sortKey a.Seq ≤ sortKey b.Seq) ∧
    (∀ (i j : Nat) (u v : SummaryRow),
      (summaryRows ts)[i]? = some u → (summaryRows ts)[j]? = some v →
      u.Seq = 0 → v.Seq = 5 → j < i) := by
  have hpair : (summaryRows ts).Pairwise (fun a b => sortKey a.Seq ≤ sortKey b.Seq) := by
    unfold summaryRows
    rw [List.pairwise_map]
    exact (List.sorted_insertionSort keyLE (groupKeys ts)).imp (fun h => h)
  refine ⟨hpair, ?_⟩
  intro i j u v hu hv hu0 hv5
  rw [List.getElem?_eq_some] at hu hv
  obtain ⟨hi, hu2⟩ := hu
  obtain ⟨hj, hv2⟩ := hv
  have hij : ¬ i < j := by
    intro hlt
    have hle := List.pairwise_iff_getElem.1 hpair i j hi hj hlt
    rw [hu2, hv2, hu0, hv5] at hle
    simp [sortKey] at hle
  have hne : i ≠ j := by
    intro he
    subst he
    rw [hu2] at hv2
    rw [hv2, hv5] at hu0
    exact absurd hu0 (by decide)
  omega

/-- Witness for C1 amended: with groups Seq=0 and Seq=5 the Seq=0 row is
at position 1, strictly after the Seq=5 row at position 0. -/
theorem custom_sort_amended_witness :
    ((summaryRows [seq0Ticket, seq5Ticket])[1]?
        = some (mkRow [seq0Ticket, seq5Ticket] (0, "Public", "GA", 1)) ∧
      (summaryRows [seq0Ticket, seq5Ticket])[0]?
        = some (mkRow [seq0Ticket, seq5Ticket] (5, "Public", "GA", 1))) ∧
    (0 : Nat) < 1 :=
  ⟨⟨by decide, by decide⟩,
   (custom_sort_amended [seq0Ticket, seq5Ticket]).2 1 0
     (mkRow [seq0Ticket, seq5Ticket] (0, "Public", "GA", 1))
     (mkRow [seq0Ticket, seq5Ticket] (5, "Public", "GA", 1))
     (by decide) (by decide) (by decide) (by decide)⟩

/-- Counting a key in the list of ticket keys is the size of its group. -/
theorem count_filterMap_keyOf (ts : List Ticket) (k : GroupKey) :
    @List.count GroupKey instBEqOfDecidableEq k (ts.filterMap keyOf)
      = (groupTickets ts k).length := by
  induction ts with
  | nil => rfl
  | cons t ts ih =>
    unfold groupTickets at ih ⊢
    cases h : keyOf t with
    | none => simp [List.filterMap_cons, h, List.filter_cons, ih]
    | some k2 =>
      by_cases hk : k2 = k
      · subst hk
        simp [List.filterMap_cons, h, List.filter_cons, List.count_cons, ih]
        show decide (k2 = k2) = true
        simp
      · simp [List.filterMap_cons, h, List.filter_cons, List.count_cons, hk, ih]
        show decide (k2 = k) = false
        simp [hk]

/-- Exactly the tickets with a present Seq contribute a key. -/
theorem length_filterMap_keyOf (ts : List Ticket) :
    (ts.filterMap keyOf).length = (ts.filter (fun t => t.Seq.isSome)).length := by
  induction ts with
  | nil => rfl
  | cons t ts ih =>
    cases h : t.Seq with
    | none =>
      have hk : keyOf t = none := by simp [keyOf, h]
      simp [List.filterMap_cons, hk, List.filter_cons, h, ih]
    | some s =>
      have hk : keyOf t = some (s, t.Ty, t.Category, t.Admit) := by simp [keyOf, h]
      simp [List.filterMap_cons, hk, List.filter_cons, h, ih]

/-- A ticket with missing Seq: the groupby drops it entirely. -/
def noSeqTicket : Ticket := ⟨"0001", "Public", "GA", 1, none, false, "", false, 0, none⟩

/-- C2 counterexample: a ticket whose Seq is missing or non-numeric
belongs to no group (pandas groupby drops NaN keys), so a one-ticket
collection yields an empty summary and sum of Total_Tickets 0, not 1. -/
theorem summary_totals_counterexample :
    summaryRows [noSeqTicket] = [] ∧
    ((summaryRows [noSeqTicket]).map (fun r => r.Total_Tickets)).sum = 0 ∧
    [noSeqTicket].length = 1 :=
  ⟨rfl, rfl, rfl⟩

/-- C2 amended: the summary has one row per distinct group among the
tickets with a present numeric Seq, and the sum of Total_Tickets over the
rows equals the number of such tickets; tickets with missing or
non-numeric Seq are silently excluded from the summary. -/
theorem summary_totals (ts : List Ticket) :
    ((summaryRows ts).map (fun r => r.Total_Tickets)).sum
      = ((ts.filter (fun t => t.Seq.isSome)).length : Int) := by
  unfold summaryRows
  rw [List.map_map]
  have hperm :
      ((List.insertionSort keyLE (groupKeys ts)).map
          ((fun r => r.Total_Tickets) ∘ mkRow ts)).sum
        = ((groupKeys ts).map ((fun r => r.Total_Tickets) ∘ mkRow ts)).sum :=
    List.Perm.sum_eq ((List.perm_insertionSort keyLE (groupKeys ts)).map _)
  rw [hperm]
  have hmap : (groupKeys ts).map ((fun r => r.Total_Tickets) ∘ mkRow ts)
      = (groupKeys ts).map (fun k =>
          ((@List.count GroupKey instBEqOfDecidableEq k (ts.filterMap keyOf) : Nat) : Int)) := by
    apply List.map_congr_left
    intro k _
    simp only [Function.comp_apply, mkRow]
    rw [count_filterMap_keyOf]
  rw [hmap]
  have hcast : (groupKeys ts).map (fun k =>
          ((@List.count GroupKey instBEqOfDecidableEq k (ts.filterMap keyOf) : Nat) : Int))
      = ((groupKeys ts).map (fun k =>
          @List.count GroupKey instBEqOfDecidableEq k (ts.filterMap keyOf))).map
          (fun n : Nat => (n : Int)) := by
    rw [List.map_map]
    rfl
  rw [hcast, ← Nat.cast_list_sum]
  unfold groupKeys
  rw [List.sum_map_count_dedup_eq_length, length_filterMap_keyOf]

/-- C6: every summary row satisfies the per-group equations of the
dashboard: the three aggregates count respectively sum over its group,
and the five derived columns are the stated products and differences. -/
theorem summary_row_equations (ts : List Ticket) (r : SummaryRow)
    (hr : r ∈ summaryRows ts) :
    r.Total_Tickets = ((groupTickets ts (r.Seq, r.Ty, r.Category, r.Admit)).length : Int) ∧
    r.Tickets_Sold = (((groupTickets ts (r.Seq, r.Ty, r.Category, r.Admit)).filter
        (fun t => t.Sold)).length : Int) ∧
    r.Total_Visitors = ((groupTickets ts (r.Seq, r.Ty, r.Category, r.Admit)).map
        (fun t => t.Visitor_Seats)).sum ∧
    r.Total_Seats = r.Total_Tickets * r.Admit ∧
    r.Seats_sold = r.Tickets_Sold * r.Admit ∧
    r.Balance_Tickets = r.Total_Tickets - r.Tickets_Sold ∧
    r.Balance_Seats = r.Total_Seats - r.Seats_sold ∧
    r.Balance_Visitors = r.Seats_sold - r.Total_Visitors := by
  unfold summaryRows at hr
  rcases List.mem_map.1 hr with ⟨k, _, rfl⟩
  obtain ⟨s, ty, cat, ad⟩ := k
  exact ⟨rfl, rfl, rfl, rfl, rfl, rfl, rfl, rfl⟩

/-- Witness for C6 at a concrete two-ticket group: one of the two tickets
is sold with 1 visitor seat recorded. -/
def tBobVisited : Ticket := ⟨"0001", "Public", "GA", 2, some 1, true, "Bob", true, 1, some "t1"⟩

/-- The summary row of the witness collection. -/
theorem summary_row_equations_witness :
    (mkRow [tBobVisited, tGA2] (1, "Public", "GA", 2) ∈ summaryRows [tBobVisited, tGA2]) ∧
    ((mkRow [tBobVisited, tGA2] (1, "Public", "GA", 2)).Total_Tickets
        = ((groupTickets [tBobVisited, tGA2] (1, "Public", "GA", 2)).length : Int) ∧
      (mkRow [tBobVisited, tGA2] (1, "Public", "GA", 2)).Tickets_Sold
        = (((groupTickets [tBobVisited, tGA2] (1, "Public", "GA", 2)).filter
            (fun t => t.Sold)).length : Int) ∧
      (mkRow [tBobVisited, tGA2] (1, "Public", "GA", 2)).Total_Visitors
        = ((groupTickets [tBobVisited, tGA2] (1, "Public", "GA", 2)).map
            (fun t => t.Visitor_Seats)).sum ∧
      (mkRow [tBobVisited, tGA2] (1, "Public", "GA", 2)).Total_Seats
        = (mkRow [tBobVisited, tGA2] (1, "Public", "GA", 2)).Total_Tickets
            * (mkRow [tBobVisited, tGA2] (1, "Public", "GA", 2)).Admit ∧
      (mkRow [tBobVisited, tGA2] (1, "Public", "GA", 2)).Seats_sold
        = (mkRow [tBobVisited, tGA2] (1, "Public", "GA", 2)).Tickets_Sold
            * (mkRow [tBobVisited, tGA2] (1, "Public", "GA", 2)).Admit ∧
      (mkRow [tBobVisited, tGA2] (1, "Public", "GA", 2)).Balance_Tickets
        = (mkRow [tBobVisited, tGA2] (1, "Public", "GA", 2)).Total_Tickets
            - (mkRow [tBobVisited, tGA2] (1, "Public", "GA", 2)).Tickets_Sold ∧
      (mkRow [tBobVisited, tGA2] (1, "Public", "GA", 2)).Balance_Seats
        = (mkRow [tBobVisited, tGA2] (1, "Public", "GA", 2)).Total_Seats
            - (mkRow [tBobVisited, tGA2] (1, "Public", "GA", 2)).Seats_sold ∧
      (mkRow [tBobVisited, tGA2] (1, "Public", "GA", 2)).Balance_Visitors
        = (mkRow [tBobVisited, tGA2] (1, "Public", "GA", 2)).Seats_sold
            - (mkRow [tBobVisited, tGA2] (1, "Public", "GA", 2)).Total_Visitors) :=
  ⟨by decide,
   summary_row_equations [tBobVisited, tGA2]
     (mkRow [tBobVisited, tGA2] (1, "Public", "GA", 2)) (by decide)⟩

end EventTickets
